import Mathlib

/-!
Verification of the row-toggling click handler in `src/report/script.js`.

The DOM is modelled shallowly: an association list from element identifiers
to elements (class attribute, style attribute, text content) together with
the row count of the results table, which the script reads as
`document.getElementsByClassName("result-table")[0].rows.length`.  The
results table itself is part of the page's DOM contract and always present.

JavaScript numbers are modelled as exact natural numbers (exact for every
value below 2^53, far beyond any table size).  `Number` applied to the
digit-only strings the handler feeds it is decimal parsing, with
`Number("") = 0`.  A handler that dereferences a missing element
(`null.getAttribute`, `null.setAttribute`, `null.textContent`: a TypeError)
is modelled as returning `none`.
-/

namespace Report

/-- A DOM element as the script observes it: its `class` attribute, its
`style` attribute (each possibly absent) and its text content. -/
structure Element where
  attrClass : Option String
  attrStyle : Option String
  text : String
deriving DecidableEq

/-- The DOM: elements keyed by identifier, plus the row count of the
results table (`getElementsByClassName("result-table")[0].rows.length`). -/
structure Dom where
  elems : List (String × Element)
  tableRowCount : Nat
deriving DecidableEq

/-- `document.getElementById`: the first element carrying the identifier,
`none` when no such element exists (JS `null`). -/
def getElementById (d : Dom) (id : String) : Option Element :=
  (d.elems.find? (fun p => p.1 == id)).map (fun p => p.2)

/-- `setAttribute` / `textContent :=` on the element with the given
identifier: replace its stored fields using `f`. -/
def updateAt (d : Dom) (id : String) (f : Element → Element) : Dom :=
  { d with elems := d.elems.map (fun p => if p.1 == id then (p.1, f p.2) else p) }

/-- JavaScript `String.prototype.split("-")` on the character list of a
string: the groups of characters between `'-'` separators, keeping empty
groups (so `"a-".split("-") = ["a", ""]`). -/
def splitDash : List Char → List (List Char)
  | [] => [[]]
  | c :: cs =>
    if c = '-' then [] :: splitDash cs
    else
      match splitDash cs with
      | g :: gs => (c :: g) :: gs
      | [] => [[c]]

/-- JavaScript `element.split("-").at(-1)`: the last component of the
split. -/
def lastSplitComponent (s : String) : String :=
  ((splitDash s.data).getLastD []).asString

/-- Decimal accumulation over a character list, digit value `code - 48`. -/
def parseDigitsAcc : Nat → List Char → Nat
  | a, [] => a
  | a, c :: cs => parseDigitsAcc (10 * a + (c.toNat - 48)) cs

/-- JavaScript `Number(s)` for the digit-only strings the handler produces
(the only shape reaching it under the `isTableId` guard); `Number("") = 0`. -/
def jsNumber (s : String) : Nat :=
  parseDigitsAcc 0 s.data

/-- Strip a literal character list from the front of another, `none` when it
is not a prefix. -/
def stripLit : List Char → List Char → Option (List Char)
  | [], rest => some rest
  | _ :: _, [] => none
  | p :: ps, c :: cs => if c = p then stripLit ps cs else none

/-- The test `/^result-table-row-\d*$/.test(id)`: the literal stem
`result-table-row-` followed by zero or more ASCII digits. -/
def isTableId (id : String) : Bool :=
  match stripLit "result-table-row-".data id.data with
  | some rest => rest.all Char.isDigit
  | none => false

/-- The identifier string `"result-table-row-" + Number(n)` the script
builds. -/
def rowId (n : Nat) : String :=
  "result-table-row-" ++ toString n

/-- `element.setAttribute("class", v)`. -/
def setClassAt (d : Dom) (id : String) (v : String) : Dom :=
  updateAt d id (fun e => { e with attrClass := some v })

/-- `element.setAttribute("style", v)`. -/
def setStyleAt (d : Dom) (id : String) (v : String) : Dom :=
  updateAt d id (fun e => { e with attrStyle := some v })

/-- `element.textContent = v`. -/
def setTextAt (d : Dom) (id : String) (v : String) : Dom :=
  updateAt d id (fun e => { e with text := v })

/-- The `hide_row` handler of `script.js`, acting on the clicked element's
identifier.  The `Option.bind` models the TypeError raised by
`row_odd.getAttribute` when `document.getElementById` returned `null`:
`none` is the fault. -/
def hide_row (d : Dom) (targetId : String) : Option Dom :=
  if isTableId targetId then
    let row_number := jsNumber (lastSplitComponent targetId)
    if row_number % 2 = 0 then
      (getElementById d (rowId (row_number + 1))).bind (fun row_odd =>
        if row_odd.attrClass ≠ some "row-hide" then
          some (setStyleAt (setClassAt d (rowId (row_number + 1)) "row-hide")
            targetId "Null")
        else
          some (setStyleAt (setClassAt d (rowId (row_number + 1)) "Null")
            targetId "border-left: 5px solid green;"))
    else some d
  else some d

/-- The loop shared verbatim by the two branches of `button`
(`for (let i = odd_rows; i > 0; i = i - 2)`), differing only in the two
attribute strings: set the class of row `i` to `clsVal` and the style of
row `i - 1` to `styVal`.  The JS loop counter starts at
`rows.length - 1`, which is `-1` when the table has no rows; the loop body
then never runs, exactly as with truncated `Nat` subtraction here.
The binds model the TypeError on a missing row element (`none`). -/
def buttonLoop (clsVal styVal : String) (d : Dom) (i : Nat) : Option Dom :=
  if _h : 0 < i then
    (getElementById d (rowId i)).bind (fun _ =>
      (getElementById (setClassAt d (rowId i) clsVal) (rowId (i - 1))).bind (fun _ =>
        buttonLoop clsVal styVal
          (setStyleAt (setClassAt d (rowId i) clsVal) (rowId (i - 1)) styVal)
          (i - 2)))
  else some d
termination_by i
decreasing_by omega

/-- The `button` handler of `script.js`.  The bind models the TypeError on
`span_text.textContent` when `main-menu` is missing; the table row count is
read after the label is updated, as in the source. -/
def button (d : Dom) (targetId : String) : Option Dom :=
  if targetId = "main-menu" then
    (getElementById d "main-menu").bind (fun span_text =>
      if span_text.text = "Expand" then
        buttonLoop "Null" "border-left: 5px solid green;"
          (setTextAt d "main-menu" "Collapse")
          ((setTextAt d "main-menu" "Collapse").tableRowCount - 1)
      else
        buttonLoop "row-hide" "Null"
          (setTextAt d "main-menu" "Expand")
          ((setTextAt d "main-menu" "Expand").tableRowCount - 1))
  else some d

/-- The delegated click listener: `hide_row(target); button(target);`.
An exception thrown in `hide_row` aborts the listener before `button`
runs. -/
def click (d : Dom) (targetId : String) : Option Dom :=
  (hide_row d targetId).bind (fun d1 => button d1 targetId)

/-- The class attribute of the element with the given identifier. -/
def classAttrOf (d : Dom) (id : String) : Option (Option String) :=
  (getElementById d id).map Element.attrClass

/-- The style attribute of the element with the given identifier. -/
def styleAttrOf (d : Dom) (id : String) : Option (Option String) :=
  (getElementById d id).map Element.attrStyle

/-- The text content of the element with the given identifier. -/
def textOf (d : Dom) (id : String) : Option String :=
  (getElementById d id).map Element.text

/-- Cumulative effect of `buttonLoop cv sv · i` on row `n`: the loop sets
the class of the rows it visits (`i, i - 2, …` down to `1` or `2`) and the
style of each visited row's predecessor. -/
def loopUpd (cv sv : String) (i n : Nat) (e : Element) : Element :=
  { e with
    attrClass := if 1 ≤ n ∧ n ≤ i ∧ (i - n) % 2 = 0 then some cv else e.attrClass
    attrStyle := if n < i ∧ (i - n) % 2 = 1 then some sv else e.attrStyle }

/-! ### Concrete report pages for scenarios, counterexamples and witnesses -/

/-- A fresh row: visible (no class attribute), un-bordered (no style). -/
def rowElem : Element := ⟨none, none, ""⟩

/-- Two fresh row pairs `0..3`, table row count `4`, no menu. -/
def dC4 : Dom :=
  ⟨[(rowId 0, rowElem), (rowId 1, rowElem), (rowId 2, rowElem),
    (rowId 3, rowElem)], 4⟩

/-- One fresh pair and a menu reading `"Expand"`, table row count `2`. -/
def dMenuE : Dom :=
  ⟨[("main-menu", ⟨none, none, "Expand"⟩), (rowId 0, rowElem),
    (rowId 1, rowElem)], 2⟩

/-- One fresh pair and a menu reading `"Collapse"`, table row count `2`. -/
def dMenuC : Dom :=
  ⟨[("main-menu", ⟨none, none, "Collapse"⟩), (rowId 0, rowElem),
    (rowId 1, rowElem)], 2⟩

/-- Three fresh rows `0..2` and a menu reading `"Expand"`, table row count
`3` — an even loop start index. -/
def dC6 : Dom :=
  ⟨[("main-menu", ⟨none, none, "Expand"⟩), (rowId 0, rowElem),
    (rowId 1, rowElem), (rowId 2, rowElem)], 3⟩

/-- A lone even row without its detail sibling. -/
def dC9 : Dom := ⟨[(rowId 0, rowElem)], 1⟩

/-- A pair already in the toggle's cycle: detail hidden, summary style
`"Null"`. -/
def dC5 : Dom :=
  ⟨[(rowId 0, ⟨none, some "Null", ""⟩),
    (rowId 1, ⟨some "row-hide", none, ""⟩)], 2⟩

/-- A page with an element whose identifier is `result-table-row-` (zero
digits) next to a fresh pair `0, 1`. -/
def dC10 : Dom :=
  ⟨[("result-table-row-", rowElem), (rowId 0, rowElem),
    (rowId 1, rowElem)], 2⟩

/-! ### Reading through an update -/

theorem find?_snd_update (k id : String) (f : Element → Element) :
    ∀ (l : List (String × Element)),
      ((l.map (fun p => if p.1 == k then (p.1, f p.2) else p)).find?
          (fun p => p.1 == id)).map (fun p => p.2) =
        if id = k then ((l.find? (fun p => p.1 == id)).map (fun p => p.2)).map f
        else (l.find? (fun p => p.1 == id)).map (fun p => p.2) := by
  intro l
  induction l with
  | nil => simp [List.find?]
  | cons a l ih =>
    by_cases haid : a.1 = id
    · subst haid
      have h1 : ((if a.1 == k then (a.1, f a.2) else a).1 == a.1) = true := by
        split <;> simp
      have h2 : (a.1 == a.1) = true := by simp
      rw [List.map_cons]
      simp only [List.find?_cons, h1, h2]
      by_cases hk : a.1 = k
      · have hak : (a.1 == k) = true := by simp [hk]
        simp [hak, hk]
      · have hak : (a.1 == k) = false := by simp [hk]
        simp [hak, hk]
    · have h1 : ((if a.1 == k then (a.1, f a.2) else a).1 == id) = false := by
        split <;> simp [haid]
      have h2 : (a.1 == id) = false := by simp [haid]
      rw [List.map_cons]
      simp only [List.find?_cons, h1, h2]
      exact ih

/-- Reading an element after a single-identifier update. -/
theorem getElementById_updateAt (d : Dom) (k id : String) (f : Element → Element) :
    getElementById (updateAt d k f) id =
      if id = k then (getElementById d id).map f else getElementById d id :=
  find?_snd_update k id f d.elems

theorem tableRowCount_updateAt (d : Dom) (k : String) (f : Element → Element) :
    (updateAt d k f).tableRowCount = d.tableRowCount := rfl

theorem isSome_getElementById_updateAt (d : Dom) (k id : String) (f : Element → Element) :
    (getElementById (updateAt d k f) id).isSome = (getElementById d id).isSome := by
  rw [getElementById_updateAt]; split <;> simp

/-! ### Decimal rendering and parsing -/

theorem parseDigitsAcc_cons (a : Nat) (c : Char) (cs : List Char) :
    parseDigitsAcc a (c :: cs) = parseDigitsAcc (10 * a + (c.toNat - 48)) cs := rfl

theorem digitChar_isDigit {m : Nat} (h : m < 10) : (Nat.digitChar m).isDigit = true := by
  interval_cases m <;> decide

theorem digitChar_toNat {m : Nat} (h : m < 10) : (Nat.digitChar m).toNat - 48 = m := by
  interval_cases m <;> decide

theorem toDigitsCore_isDigit :
    ∀ (fuel n : Nat) (ds : List Char), (∀ c ∈ ds, c.isDigit = true) →
      ∀ c ∈ Nat.toDigitsCore 10 fuel n ds, c.isDigit = true := by
  intro fuel
  induction fuel with
  | zero => intro n ds hds c hc; exact hds c hc
  | succ fuel ih =>
    intro n ds hds c hc
    simp only [Nat.toDigitsCore] at hc
    have hmem : ∀ c ∈ Nat.digitChar (n % 10) :: ds, c.isDigit = true := by
      intro c hc
      rcases List.mem_cons.mp hc with h | h
      · subst h; exact digitChar_isDigit (Nat.mod_lt _ (by norm_num))
      · exact hds c h
    by_cases h0 : n / 10 = 0
    · rw [if_pos h0] at hc
      exact hmem c hc
    · rw [if_neg h0] at hc
      exact ih (n / 10) _ hmem c hc

theorem parseDigitsAcc_toDigitsCore :
    ∀ (fuel n : Nat) (ds : List Char), n < fuel →
      parseDigitsAcc 0 (Nat.toDigitsCore 10 fuel n ds) = parseDigitsAcc n ds := by
  intro fuel
  induction fuel with
  | zero => intro n ds hn; omega
  | succ fuel ih =>
    intro n ds hn
    simp only [Nat.toDigitsCore]
    by_cases h0 : n / 10 = 0
    · rw [if_pos h0, parseDigitsAcc_cons]
      have hlt : n < 10 := (Nat.div_eq_zero_iff (by norm_num)).mp h0
      have hval := digitChar_toNat (Nat.mod_lt n (by norm_num) : n % 10 < 10)
      congr 1
      omega
    · rw [if_neg h0]
      have hpos : 0 < n := Nat.pos_of_ne_zero (by
        intro h; exact h0 (by simp [h]))
      have hlt : n / 10 < fuel :=
        lt_of_lt_of_le (Nat.div_lt_self hpos (by norm_num)) (Nat.lt_succ_iff.mp hn)
      rw [ih (n / 10) _ hlt, parseDigitsAcc_cons]
      have hval := digitChar_toNat (Nat.mod_lt n (by norm_num) : n % 10 < 10)
      congr 1
      omega

theorem toString_nat_data (n : Nat) : (toString n).data = Nat.toDigits 10 n := rfl

theorem toString_isDigit (n : Nat) : ∀ c ∈ (toString n).data, c.isDigit = true := by
  rw [toString_nat_data]
  exact toDigitsCore_isDigit (n + 1) n [] (by simp)

theorem jsNumber_toString (n : Nat) : jsNumber (toString n) = n := by
  unfold jsNumber
  rw [toString_nat_data]
  unfold Nat.toDigits
  rw [parseDigitsAcc_toDigitsCore (n + 1) n [] (Nat.lt_succ_self n)]
  rfl

/-! ### `split("-").at(-1)` on well-formed row identifiers -/

theorem splitDash_ne_nil (l : List Char) : splitDash l ≠ [] := by
  induction l with
  | nil => simp [splitDash]
  | cons c cs ih =>
    by_cases h : c = '-'
    · simp [splitDash, h]
    · rw [splitDash, if_neg h]
      cases hs : splitDash cs with
      | nil => simp
      | cons g gs => simp

theorem getLastD_of_ne_nil {α : Type} (l : List α) (h : l ≠ []) (a b : α) :
    l.getLastD a = l.getLastD b := by
  cases l with
  | nil => exact absurd rfl h
  | cons x t => rw [List.getLastD_cons, List.getLastD_cons]

theorem two_le_length_splitDash_append (xs ys : List Char) :
    2 ≤ (splitDash (xs ++ '-' :: ys)).length := by
  induction xs with
  | nil =>
    rw [List.nil_append, splitDash, if_pos rfl]
    have := List.length_pos.mpr (splitDash_ne_nil ys)
    simp only [List.length_cons]
    omega
  | cons c cs ih =>
    rw [List.cons_append]
    by_cases h : c = '-'
    · rw [splitDash, if_pos h]
      simp only [List.length_cons]
      omega
    · rw [splitDash, if_neg h]
      cases hs : splitDash (cs ++ '-' :: ys) with
      | nil => exact absurd hs (splitDash_ne_nil _)
      | cons g gs =>
        rw [hs] at ih
        simpa using ih

theorem getLastD_splitDash_append (xs ys : List Char) :
    (splitDash (xs ++ '-' :: ys)).getLastD [] = (splitDash ys).getLastD [] := by
  induction xs with
  | nil =>
    rw [List.nil_append, splitDash, if_pos rfl, List.getLastD_cons]
  | cons c cs ih =>
    rw [List.cons_append]
    by_cases h : c = '-'
    · rw [splitDash, if_pos h, List.getLastD_cons]
      exact ih
    · rw [splitDash, if_neg h]
      cases hs : splitDash (cs ++ '-' :: ys) with
      | nil => exact absurd hs (splitDash_ne_nil _)
      | cons g gs =>
        have h2 := two_le_length_splitDash_append cs ys
        rw [hs] at h2
        have hgs : gs ≠ [] := by
          cases gs with
          | nil => simp at h2
          | cons x t => simp
        rw [List.getLastD_cons, getLastD_of_ne_nil gs hgs (c :: g) g,
          ← List.getLastD_cons ([] : List Char) g gs, ← hs]
        exact ih

theorem splitDash_of_no_dash (l : List Char) (h : ∀ c ∈ l, c ≠ '-') :
    splitDash l = [l] := by
  induction l with
  | nil => rfl
  | cons c cs ih =>
    have hc : c ≠ '-' := h c (List.mem_cons_self c cs)
    rw [splitDash, if_neg hc, ih (fun x hx => h x (List.mem_cons_of_mem c hx))]

theorem lastSplitComponent_rowId (n : Nat) :
    lastSplitComponent (rowId n) = toString n := by
  unfold lastSplitComponent rowId
  rw [String.data_append]
  have hdec : "result-table-row-".data ++ (toString n).data
      = "result-table-row".data ++ '-' :: (toString n).data := rfl
  rw [hdec, getLastD_splitDash_append,
    splitDash_of_no_dash (toString n).data ?nodash]
  · rfl
  case nodash =>
    intro c hc hdash
    have hd := toString_isDigit n c hc
    rw [hdash] at hd
    exact absurd hd (by decide)

/-! ### The identifier test and the canonical row identifiers -/

theorem stripLit_append (l x : List Char) : stripLit l (l ++ x) = some x := by
  induction l with
  | nil => rfl
  | cons p ps ih =>
    rw [List.cons_append, stripLit, if_pos rfl]
    exact ih

theorem isTableId_rowId (n : Nat) : isTableId (rowId n) = true := by
  unfold isTableId rowId
  rw [String.data_append, stripLit_append]
  simp only [List.all_eq_true]
  intro c hc
  exact toString_isDigit n c hc

theorem jsNumber_lastSplit_rowId (n : Nat) :
    jsNumber (lastSplitComponent (rowId n)) = n := by
  rw [lastSplitComponent_rowId, jsNumber_toString]

theorem rowId_inj {m n : Nat} (h : rowId m = rowId n) : m = n := by
  have h2 := congrArg (fun s => jsNumber (lastSplitComponent s)) h
  simpa [jsNumber_lastSplit_rowId] using h2

theorem rowId_ne_mainMenu (n : Nat) : rowId n ≠ "main-menu" := by
  intro h
  have h2 := congrArg String.data h
  rw [rowId, String.data_append] at h2
  have h3 : ("result-table-row-".data ++ (toString n).data).head? = some 'r' := rfl
  rw [h2] at h3
  exact absurd h3 (by decide)

theorem isTableId_mainMenu : isTableId "main-menu" = false := by decide

/-! ### Characterising the `button` loop -/

theorem loopUpd_zero (cv sv : String) (n : Nat) (e : Element) :
    loopUpd cv sv 0 n e = e := by
  unfold loopUpd
  rw [if_neg (by omega : ¬ (1 ≤ n ∧ n ≤ 0 ∧ (0 - n) % 2 = 0)),
    if_neg (by omega : ¬ (n < 0 ∧ (0 - n) % 2 = 1))]

theorem loopUpd_at_visited (cv sv : String) (i : Nat) (hi : 1 ≤ i) (e : Element) :
    loopUpd cv sv (i - 2) i { e with attrClass := some cv }
      = loopUpd cv sv i i e := by
  unfold loopUpd
  rw [if_neg (by omega : ¬ (1 ≤ i ∧ i ≤ i - 2 ∧ (i - 2 - i) % 2 = 0)),
    if_neg (by omega : ¬ (i < i - 2 ∧ (i - 2 - i) % 2 = 1)),
    if_pos (by omega : 1 ≤ i ∧ i ≤ i ∧ (i - i) % 2 = 0),
    if_neg (by omega : ¬ (i < i ∧ (i - i) % 2 = 1))]

theorem loopUpd_at_pred (cv sv : String) (i : Nat) (hi : 1 ≤ i) (e : Element) :
    loopUpd cv sv (i - 2) (i - 1) { e with attrStyle := some sv }
      = loopUpd cv sv i (i - 1) e := by
  unfold loopUpd
  rw [if_neg (by omega : ¬ (1 ≤ i - 1 ∧ i - 1 ≤ i - 2 ∧ (i - 2 - (i - 1)) % 2 = 0)),
    if_neg (by omega : ¬ (i - 1 < i - 2 ∧ (i - 2 - (i - 1)) % 2 = 1)),
    if_neg (by omega : ¬ (1 ≤ i - 1 ∧ i - 1 ≤ i ∧ (i - (i - 1)) % 2 = 0)),
    if_pos (by omega : i - 1 < i ∧ (i - (i - 1)) % 2 = 1)]

theorem loopUpd_other (cv sv : String) (i n : Nat) (hi : 1 ≤ i)
    (hn1 : n ≠ i) (hn2 : n ≠ i - 1) (e : Element) :
    loopUpd cv sv (i - 2) n e = loopUpd cv sv i n e := by
  have hc : (1 ≤ n ∧ n ≤ i - 2 ∧ (i - 2 - n) % 2 = 0)
      ↔ (1 ≤ n ∧ n ≤ i ∧ (i - n) % 2 = 0) := by omega
  have hs : (n < i - 2 ∧ (i - 2 - n) % 2 = 1)
      ↔ (n < i ∧ (i - n) % 2 = 1) := by omega
  simp only [loopUpd, hc, hs]

/-- Full characterisation of the `for (let i = odd_rows; i > 0; i = i - 2)`
loop of `button`: it succeeds whenever the rows it touches exist, it leaves
the table row count and every non-row element unchanged, and its effect on
each row is `loopUpd`. -/
theorem buttonLoop_spec (cv sv : String) (i : Nat) :
    ∀ d : Dom,
      (∀ j, 1 ≤ j → j ≤ i →
        (getElementById d (rowId j)).isSome ∧ (getElementById d (rowId (j - 1))).isSome) →
      ∃ d', buttonLoop cv sv d i = some d' ∧
        d'.tableRowCount = d.tableRowCount ∧
        (∀ n, getElementById d' (rowId n)
            = (getElementById d (rowId n)).map (loopUpd cv sv i n)) ∧
        (∀ id, (∀ n, id ≠ rowId n) → getElementById d' id = getElementById d id) := by
  induction i using Nat.strong_induction_on with
  | _ i IH =>
    intro d hp
    by_cases hi : 0 < i
    · -- the loop body runs once at `i`, then recurses at `i - 2`
      obtain ⟨ei, hei⟩ := Option.isSome_iff_exists.mp (hp i (by omega) (by omega)).1
      obtain ⟨ep, hep0⟩ := Option.isSome_iff_exists.mp (hp i (by omega) (by omega)).2
      have hne : rowId (i - 1) ≠ rowId i := fun h => by
        have := rowId_inj h; omega
      have hep : getElementById (setClassAt d (rowId i) cv) (rowId (i - 1))
          = some ep := by
        rw [setClassAt, getElementById_updateAt, if_neg hne]; exact hep0
      have hp2 : ∀ j, 1 ≤ j → j ≤ i - 2 →
          (getElementById (setStyleAt (setClassAt d (rowId i) cv) (rowId (i - 1)) sv)
              (rowId j)).isSome
            ∧ (getElementById (setStyleAt (setClassAt d (rowId i) cv) (rowId (i - 1)) sv)
              (rowId (j - 1))).isSome := by
        intro j h1 h2
        simp only [setStyleAt, setClassAt, isSome_getElementById_updateAt]
        exact ⟨(hp j h1 (by omega)).1, (hp j h1 (by omega)).2⟩
      obtain ⟨d', hloop, hcount, hrows, hother⟩ := IH (i - 2) (by omega)
        (setStyleAt (setClassAt d (rowId i) cv) (rowId (i - 1)) sv) hp2
      refine ⟨d', ?_, ?_, ?_, ?_⟩
      · rw [buttonLoop, dif_pos hi, hei]
        simp only [Option.some_bind]
        rw [hep]
        simp only [Option.some_bind]
        exact hloop
      · rw [hcount, setStyleAt, tableRowCount_updateAt, setClassAt,
          tableRowCount_updateAt]
      · intro n
        rw [hrows n]
        by_cases hni : n = i
        · subst hni
          have hne2 : rowId n ≠ rowId (n - 1) := fun h => by
            have := rowId_inj h; omega
          rw [setStyleAt, getElementById_updateAt, if_neg hne2,
            setClassAt, getElementById_updateAt, if_pos rfl, Option.map_map]
          cases getElementById d (rowId n) with
          | none => rfl
          | some e =>
            simp only [Option.map_some', Function.comp_apply]
            rw [loopUpd_at_visited cv sv n hi e]
        · by_cases hnp : n = i - 1
          · subst hnp
            rw [setStyleAt, getElementById_updateAt, if_pos rfl,
              setClassAt, getElementById_updateAt,
              if_neg (fun h => hne (by rw [h])), Option.map_map]
            cases getElementById d (rowId (i - 1)) with
            | none => rfl
            | some e =>
              simp only [Option.map_some', Function.comp_apply]
              rw [loopUpd_at_pred cv sv i hi e]
          · have g1 : rowId n ≠ rowId (i - 1) := fun h => hnp (rowId_inj h)
            have g2 : rowId n ≠ rowId i := fun h => hni (rowId_inj h)
            rw [setStyleAt, getElementById_updateAt, if_neg g1,
              setClassAt, getElementById_updateAt, if_neg g2]
            cases getElementById d (rowId n) with
            | none => rfl
            | some e =>
              simp only [Option.map_some']
              rw [loopUpd_other cv sv i n hi hni hnp e]
      · intro id hid
        rw [hother id hid, setStyleAt, getElementById_updateAt,
          if_neg (hid (i - 1)), setClassAt, getElementById_updateAt,
          if_neg (hid i)]
    · -- `i = 0`: the loop exits immediately
      have hz : i = 0 := by omega
      subst hz
      refine ⟨d, ?_, rfl, ?_, fun id _ => rfl⟩
      · rw [buttonLoop, dif_neg hi]
      · intro n
        cases getElementById d (rowId n) with
        | none => rfl
        | some e => simp [loopUpd_zero]

/-! ### Unfolding the handlers -/

/-- `button` ignores clicks on canonical row identifiers. -/
theorem button_rowId (d : Dom) (n : Nat) : button d (rowId n) = some d := by
  rw [button, if_neg (rowId_ne_mainMenu n)]

/-- `hide_row` ignores clicks on the menu control. -/
theorem hide_row_mainMenu (d : Dom) : hide_row d "main-menu" = some d := by
  rw [hide_row, if_neg (by decide : ¬ (isTableId "main-menu" = true))]

/-- Effect of `hide_row` on a click at an even canonical row identifier
whose detail sibling is present. -/
theorem hide_row_even (d : Dom) (N : Nat) (hN : N % 2 = 0) (sib : Element)
    (hsib : getElementById d (rowId (N + 1)) = some sib) :
    hide_row d (rowId N) =
      if sib.attrClass ≠ some "row-hide" then
        some (setStyleAt (setClassAt d (rowId (N + 1)) "row-hide") (rowId N) "Null")
      else
        some (setStyleAt (setClassAt d (rowId (N + 1)) "Null") (rowId N)
          "border-left: 5px solid green;") := by
  unfold hide_row
  rw [if_pos (isTableId_rowId N)]
  simp only [jsNumber_lastSplit_rowId]
  rw [if_pos hN, hsib]
  simp only [Option.some_bind]

/-- `hide_row` faults on a click at an even canonical row identifier exactly
when the detail sibling is missing. -/
theorem hide_row_even_none_iff (d : Dom) (N : Nat) (hN : N % 2 = 0) :
    hide_row d (rowId N) = none ↔ getElementById d (rowId (N + 1)) = none := by
  unfold hide_row
  rw [if_pos (isTableId_rowId N)]
  simp only [jsNumber_lastSplit_rowId]
  rw [if_pos hN]
  cases hx : getElementById d (rowId (N + 1)) with
  | none => simp
  | some sib =>
    simp only [Option.some_bind]
    constructor
    · intro h
      by_cases hcls : sib.attrClass ≠ some "row-hide"
      · rw [if_pos hcls] at h; cases h
      · rw [if_neg hcls] at h; cases h
    · intro h; cases h

/-- Claim C7: clicking an element whose identifier neither matches the row
pattern nor equals `main-menu` mutates nothing: the handler returns the DOM
unchanged. -/
theorem C7_unmatched_noop (d : Dom) (tid : String)
    (h1 : isTableId tid = false) (h2 : tid ≠ "main-menu") :
    click d tid = some d := by
  unfold click
  rw [hide_row, if_neg (by rw [h1]; exact Bool.false_ne_true)]
  simp only [Option.some_bind]
  rw [button, if_neg h2]

/-- Claim C8: clicking a row whose canonical identifier has an odd trailing
number mutates nothing: the handler returns the DOM unchanged. -/
theorem C8_odd_row_noop (d : Dom) (N : Nat) (hN : N % 2 = 1) :
    click d (rowId N) = some d := by
  unfold click
  rw [hide_row, if_pos (isTableId_rowId N)]
  simp only [jsNumber_lastSplit_rowId]
  rw [if_neg (by omega : ¬ N % 2 = 0)]
  simp only [Option.some_bind]
  exact button_rowId d N

/-- Reading the identifier just written by `setClassAt`. -/
theorem getElementById_setClassAt_self (d : Dom) (id v : String) :
    getElementById (setClassAt d id v) id
      = (getElementById d id).map (fun e => { e with attrClass := some v }) := by
  rw [setClassAt, getElementById_updateAt, if_pos rfl]

/-- Reading a different identifier than the one written by `setClassAt`. -/
theorem getElementById_setClassAt_ne (d : Dom) (id id' v : String) (h : id' ≠ id) :
    getElementById (setClassAt d id v) id' = getElementById d id' := by
  rw [setClassAt, getElementById_updateAt, if_neg h]

/-- Reading the identifier just written by `setStyleAt`. -/
theorem getElementById_setStyleAt_self (d : Dom) (id v : String) :
    getElementById (setStyleAt d id v) id
      = (getElementById d id).map (fun e => { e with attrStyle := some v }) := by
  rw [setStyleAt, getElementById_updateAt, if_pos rfl]

/-- Reading a different identifier than the one written by `setStyleAt`. -/
theorem getElementById_setStyleAt_ne (d : Dom) (id id' v : String) (h : id' ≠ id) :
    getElementById (setStyleAt d id v) id' = getElementById d id' := by
  rw [setStyleAt, getElementById_updateAt, if_neg h]

/-- Full effect of a click on an even canonical row identifier whose detail
sibling is present (the `hide_row` mutation; `button` then ignores the row
identifier). -/
theorem click_even_row (d : Dom) (N : Nat) (hN : N % 2 = 0) (sib : Element)
    (hsib : getElementById d (rowId (N + 1)) = some sib) :
    click d (rowId N) =
      if sib.attrClass ≠ some "row-hide" then
        some (setStyleAt (setClassAt d (rowId (N + 1)) "row-hide") (rowId N) "Null")
      else
        some (setStyleAt (setClassAt d (rowId (N + 1)) "Null") (rowId N)
          "border-left: 5px solid green;") := by
  unfold click
  rw [hide_row_even d N hN sib hsib]
  by_cases hcls : sib.attrClass ≠ some "row-hide"
  · rw [if_pos hcls]
    simp only [Option.some_bind]
    exact button_rowId _ N
  · rw [if_neg hcls]
    simp only [Option.some_bind]
    exact button_rowId _ N

/-- Claim C3: clicking a row with an even canonical identifier whose detail
sibling exists sets the sibling's class to `row-hide` and the clicked row's
style to `Null` when the sibling is not already hidden, and otherwise sets
the sibling's class to `Null` and the clicked row's style to the green left
border. -/
theorem C3_row_click_effect (d : Dom) (N : Nat) (hN : N % 2 = 0) (sib : Element)
    (hsib : getElementById d (rowId (N + 1)) = some sib) :
    click d (rowId N) =
      if sib.attrClass ≠ some "row-hide" then
        some (setStyleAt (setClassAt d (rowId (N + 1)) "row-hide") (rowId N) "Null")
      else
        some (setStyleAt (setClassAt d (rowId (N + 1)) "Null") (rowId N)
          "border-left: 5px solid green;") :=
  click_even_row d N hN sib hsib

/-- Claim C9: a click on an even canonical row identifier faults (the
unguarded access on the missing sibling) exactly when the sibling is
missing; with the sibling present the handler never fails. -/
theorem C9_missing_sibling_fault (d : Dom) (N : Nat) (hN : N % 2 = 0) :
    click d (rowId N) = none ↔ getElementById d (rowId (N + 1)) = none := by
  constructor
  · intro h
    rcases hx : hide_row d (rowId N) with _ | d1
    · exact (hide_row_even_none_iff d N hN).mp hx
    · rw [click, hx, Option.some_bind, button_rowId d1 N] at h
      cases h
  · intro h
    rw [click, (hide_row_even_none_iff d N hN).mpr h]
    rfl

/-- Claim C10: the identifier `result-table-row-` (zero digits) passes the
identifier test, its suffix parses to `0` (so it is even), and the handler
mutates the sibling row `1` and the clicked element exactly as a click on
`result-table-row-0` mutates row `1` and row `0`: same class value on the
sibling, same style value on the clicked element. -/
theorem C10_empty_suffix_accepted (d : Dom) (sib : Element)
    (hsib : getElementById d (rowId 1) = some sib) :
    isTableId "result-table-row-" = true
    ∧ jsNumber (lastSplitComponent "result-table-row-") = 0
    ∧ hide_row d "result-table-row-" =
        (if sib.attrClass ≠ some "row-hide" then
          some (setStyleAt (setClassAt d (rowId 1) "row-hide")
            "result-table-row-" "Null")
        else
          some (setStyleAt (setClassAt d (rowId 1) "Null")
            "result-table-row-" "border-left: 5px solid green;"))
    ∧ hide_row d (rowId 0) =
        (if sib.attrClass ≠ some "row-hide" then
          some (setStyleAt (setClassAt d (rowId 1) "row-hide") (rowId 0) "Null")
        else
          some (setStyleAt (setClassAt d (rowId 1) "Null") (rowId 0)
            "border-left: 5px solid green;")) := by
  refine ⟨by decide, by decide, ?_, ?_⟩
  · unfold hide_row
    rw [if_pos (by decide : isTableId "result-table-row-" = true)]
    rw [(by decide : jsNumber (lastSplitComponent "result-table-row-") = 0)]
    rw [if_pos (by decide : (0 : Nat) % 2 = 0), hsib]
    simp only [Option.some_bind]
  · exact hide_row_even d 0 rfl sib hsib

/-! ### The two branches of the menu toggle, end to end -/

/-- A click on `main-menu` while its text reads `"Expand"`: the text becomes
`"Collapse"` and every row is transformed by
`loopUpd "Null" "border-left: 5px solid green;"` started at `rowCount - 1`. -/
theorem click_mainMenu_expand (d : Dom) (m : Element)
    (hm : getElementById d "main-menu" = some m) (hx : m.text = "Expand")
    (hrows : ∀ j, j < d.tableRowCount → (getElementById d (rowId j)).isSome) :
    ∃ d', click d "main-menu" = some d' ∧
      textOf d' "main-menu" = some "Collapse" ∧
      ∀ n, getElementById d' (rowId n)
        = (getElementById d (rowId n)).map
            (loopUpd "Null" "border-left: 5px solid green;" (d.tableRowCount - 1) n) := by
  have hp : ∀ j, 1 ≤ j → j ≤ d.tableRowCount - 1 →
      (getElementById (setTextAt d "main-menu" "Collapse") (rowId j)).isSome
        ∧ (getElementById (setTextAt d "main-menu" "Collapse") (rowId (j - 1))).isSome := by
    intro j h1 h2
    simp only [setTextAt, isSome_getElementById_updateAt]
    exact ⟨hrows j (by omega), hrows (j - 1) (by omega)⟩
  obtain ⟨d', hloop, hcount, hrowsE, hotherE⟩ :=
    buttonLoop_spec "Null" "border-left: 5px solid green;" (d.tableRowCount - 1)
      (setTextAt d "main-menu" "Collapse") hp
  refine ⟨d', ?_, ?_, ?_⟩
  · unfold click
    rw [hide_row_mainMenu]
    simp only [Option.some_bind]
    rw [button, if_pos rfl, hm]
    simp only [Option.some_bind]
    rw [if_pos hx]
    exact hloop
  · unfold textOf
    rw [hotherE "main-menu" (fun n => Ne.symm (rowId_ne_mainMenu n)),
      setTextAt, getElementById_updateAt, if_pos rfl, hm]
    rfl
  · intro n
    rw [hrowsE n, setTextAt, getElementById_updateAt,
      if_neg (rowId_ne_mainMenu n)]

/-- A click on `main-menu` while its text does not read `"Expand"`: the text
becomes `"Expand"` and every row is transformed by
`loopUpd "row-hide" "Null"` started at `rowCount - 1`. -/
theorem click_mainMenu_collapse (d : Dom) (m : Element)
    (hm : getElementById d "main-menu" = some m) (hx : m.text ≠ "Expand")
    (hrows : ∀ j, j < d.tableRowCount → (getElementById d (rowId j)).isSome) :
    ∃ d', click d "main-menu" = some d' ∧
      textOf d' "main-menu" = some "Expand" ∧
      ∀ n, getElementById d' (rowId n)
        = (getElementById d (rowId n)).map
            (loopUpd "row-hide" "Null" (d.tableRowCount - 1) n) := by
  have hp : ∀ j, 1 ≤ j → j ≤ d.tableRowCount - 1 →
      (getElementById (setTextAt d "main-menu" "Expand") (rowId j)).isSome
        ∧ (getElementById (setTextAt d "main-menu" "Expand") (rowId (j - 1))).isSome := by
    intro j h1 h2
    simp only [setTextAt, isSome_getElementById_updateAt]
    exact ⟨hrows j (by omega), hrows (j - 1) (by omega)⟩
  obtain ⟨d', hloop, hcount, hrowsE, hotherE⟩ :=
    buttonLoop_spec "row-hide" "Null" (d.tableRowCount - 1)
      (setTextAt d "main-menu" "Expand") hp
  refine ⟨d', ?_, ?_, ?_⟩
  · unfold click
    rw [hide_row_mainMenu]
    simp only [Option.some_bind]
    rw [button, if_pos rfl, hm]
    simp only [Option.some_bind]
    rw [if_neg hx]
    exact hloop
  · unfold textOf
    rw [hotherE "main-menu" (fun n => Ne.symm (rowId_ne_mainMenu n)),
      setTextAt, getElementById_updateAt, if_pos rfl, hm]
    rfl
  · intro n
    rw [hrowsE n, setTextAt, getElementById_updateAt,
      if_neg (rowId_ne_mainMenu n)]

/-- Claim C1 (amended): clicking `main-menu` while its text is `"Expand"`
sets the text to `"Collapse"` and, for every row pair of a fully paired
table (even row count, all rows present), sets the odd (detail) row's class
to the literal `"Null"` — clearing any hidden marker rather than applying
it — and the even (summary) row's style to the green left border, so that
afterwards no odd row is hidden and every even row is bordered. -/
theorem C1_mainMenu_expand_amended (d : Dom) (m : Element)
    (hm : getElementById d "main-menu" = some m)
    (hx : m.text = "Expand")
    (hc : d.tableRowCount % 2 = 0)
    (hrows : ∀ j, j < d.tableRowCount → (getElementById d (rowId j)).isSome) :
    ((click d "main-menu").bind (fun d' => textOf d' "main-menu")
        = some "Collapse")
    ∧ (∀ j, j < d.tableRowCount → j % 2 = 1 →
        (click d "main-menu").bind (fun d' => classAttrOf d' (rowId j))
          = some (some "Null"))
    ∧ (∀ j, j < d.tableRowCount → j % 2 = 0 →
        (click d "main-menu").bind (fun d' => styleAttrOf d' (rowId j))
          = some (some "border-left: 5px solid green;")) := by
  obtain ⟨d', hclick, htext, hrowsE⟩ := click_mainMenu_expand d m hm hx hrows
  rw [hclick]
  refine ⟨by simp only [Option.some_bind]; exact htext, ?_, ?_⟩
  · intro j hj hodd
    simp only [Option.some_bind, classAttrOf]
    rw [hrowsE j]
    obtain ⟨e, he⟩ := Option.isSome_iff_exists.mp (hrows j hj)
    rw [he]
    simp only [Option.map_some', loopUpd]
    rw [if_pos (by omega :
      1 ≤ j ∧ j ≤ d.tableRowCount - 1 ∧ (d.tableRowCount - 1 - j) % 2 = 0)]
  · intro j hj heven
    simp only [Option.some_bind, styleAttrOf]
    rw [hrowsE j]
    obtain ⟨e, he⟩ := Option.isSome_iff_exists.mp (hrows j hj)
    rw [he]
    simp only [Option.map_some', loopUpd]
    rw [if_pos (by omega :
      j < d.tableRowCount - 1 ∧ (d.tableRowCount - 1 - j) % 2 = 1)]

/-- Claim C2 (amended): clicking `main-menu` while its text is `"Collapse"`
sets the text to `"Expand"` and, for every row pair of a fully paired table
(even row count, all rows present), sets the odd (detail) row's class to
`"row-hide"` — hiding it rather than clearing the marker — and the even
(summary) row's style to the literal `"Null"`, so that afterwards every odd
row is hidden and no row carries the border marker. -/
theorem C2_mainMenu_collapse_amended (d : Dom) (m : Element)
    (hm : getElementById d "main-menu" = some m)
    (hx : m.text = "Collapse")
    (hc : d.tableRowCount % 2 = 0)
    (hrows : ∀ j, j < d.tableRowCount → (getElementById d (rowId j)).isSome) :
    ((click d "main-menu").bind (fun d' => textOf d' "main-menu")
        = some "Expand")
    ∧ (∀ j, j < d.tableRowCount → j % 2 = 1 →
        (click d "main-menu").bind (fun d' => classAttrOf d' (rowId j))
          = some (some "row-hide"))
    ∧ (∀ j, j < d.tableRowCount → j % 2 = 0 →
        (click d "main-menu").bind (fun d' => styleAttrOf d' (rowId j))
          = some (some "Null")) := by
  obtain ⟨d', hclick, htext, hrowsE⟩ :=
    click_mainMenu_collapse d m hm (by rw [hx]; decide) hrows
  rw [hclick]
  refine ⟨by simp only [Option.some_bind]; exact htext, ?_, ?_⟩
  · intro j hj hodd
    simp only [Option.some_bind, classAttrOf]
    rw [hrowsE j]
    obtain ⟨e, he⟩ := Option.isSome_iff_exists.mp (hrows j hj)
    rw [he]
    simp only [Option.map_some', loopUpd]
    rw [if_pos (by omega :
      1 ≤ j ∧ j ≤ d.tableRowCount - 1 ∧ (d.tableRowCount - 1 - j) % 2 = 0)]
  · intro j hj heven
    simp only [Option.some_bind, styleAttrOf]
    rw [hrowsE j]
    obtain ⟨e, he⟩ := Option.isSome_iff_exists.mp (hrows j hj)
    rw [he]
    simp only [Option.map_some', loopUpd]
    rw [if_pos (by omega :
      j < d.tableRowCount - 1 ∧ (d.tableRowCount - 1 - j) % 2 = 1)]

/-- Claim C6 (amended): the toggle computes its start index as the
results-table row count minus one, and the hidden-class targets of its loop
are exactly the indices `start, start - 2, …` down to `1` or `2` (each set
to `"Null"`, all other rows' classes untouched); these are the odd rows
precisely when the start index is odd — when the row count is odd the loop
instead targets even rows and skips every odd row. -/
theorem C6_loop_coverage_amended (d : Dom) (m : Element)
    (hm : getElementById d "main-menu" = some m)
    (hx : m.text = "Expand")
    (hrows : ∀ j, j < d.tableRowCount → (getElementById d (rowId j)).isSome) :
    ∀ j, (click d "main-menu").bind (fun d' => classAttrOf d' (rowId j))
        = (classAttrOf d (rowId j)).map (fun c =>
            if 1 ≤ j ∧ j ≤ d.tableRowCount - 1
                ∧ (d.tableRowCount - 1 - j) % 2 = 0
            then some "Null" else c) := by
  obtain ⟨d', hclick, htext, hrowsE⟩ := click_mainMenu_expand d m hm hx hrows
  intro j
  rw [hclick]
  simp only [Option.some_bind, classAttrOf]
  rw [hrowsE j]
  cases he : getElementById d (rowId j) with
  | none => rfl
  | some e =>
    simp only [Option.map_some', loopUpd]

/-- Claim C5 (amended): clicking an even row toggles the hidden-class state
of the detail row and rewrites the clicked row's border style; two clicks
restore both attributes provided the starting attributes already lie in the
toggle's two-state cycle (class `row-hide` with style `Null`, or class
`Null` with the green border) — from an arbitrary starting state the pair
of clicks lands on the cycle instead of restoring the state. -/
theorem C5_toggle_round_trip_amended (d : Dom) (N : Nat) (hN : N % 2 = 0)
    (sib : Element) (hsib : getElementById d (rowId (N + 1)) = some sib)
    (tgt : Element) (htgt : getElementById d (rowId N) = some tgt) :
    ((click d (rowId N)).bind (fun d1 => classAttrOf d1 (rowId (N + 1)))
        = some (if sib.attrClass = some "row-hide"
            then some "Null" else some "row-hide"))
    ∧ ((click d (rowId N)).bind (fun d1 => styleAttrOf d1 (rowId N))
        = some (if sib.attrClass = some "row-hide"
            then some "border-left: 5px solid green;" else some "Null"))
    ∧ ((sib.attrClass = some "row-hide" ∧ tgt.attrStyle = some "Null")
        ∨ (sib.attrClass = some "Null"
            ∧ tgt.attrStyle = some "border-left: 5px solid green;") →
        ((click d (rowId N)).bind (fun d1 => click d1 (rowId N))).bind
            (fun d2 => classAttrOf d2 (rowId (N + 1))) = some sib.attrClass
        ∧ ((click d (rowId N)).bind (fun d1 => click d1 (rowId N))).bind
            (fun d2 => styleAttrOf d2 (rowId N)) = some tgt.attrStyle) := by
  have hne1 : rowId (N + 1) ≠ rowId N := fun h => by have := rowId_inj h; omega
  have hne2 : rowId N ≠ rowId (N + 1) := fun h => by have := rowId_inj h; omega
  by_cases hcls : sib.attrClass = some "row-hide"
  · -- the detail row is hidden: the click unhides it and sets the border
    have hclick : click d (rowId N)
        = some (setStyleAt (setClassAt d (rowId (N + 1)) "Null") (rowId N)
            "border-left: 5px solid green;") := by
      rw [click_even_row d N hN sib hsib, if_neg (by simp [hcls])]
    have hsibA : getElementById
        (setStyleAt (setClassAt d (rowId (N + 1)) "Null") (rowId N)
          "border-left: 5px solid green;") (rowId (N + 1))
        = some { sib with attrClass := some "Null" } := by
      rw [getElementById_setStyleAt_ne _ _ _ _ hne1,
        getElementById_setClassAt_self, hsib]
      rfl
    have htgtA : getElementById
        (setStyleAt (setClassAt d (rowId (N + 1)) "Null") (rowId N)
          "border-left: 5px solid green;") (rowId N)
        = some { tgt with attrStyle := some "border-left: 5px solid green;" } := by
      rw [getElementById_setStyleAt_self,
        getElementById_setClassAt_ne _ _ _ _ hne2, htgt]
      rfl
    refine ⟨?_, ?_, ?_⟩
    · rw [hclick]
      simp only [Option.some_bind, classAttrOf]
      rw [hsibA, if_pos hcls]
      rfl
    · rw [hclick]
      simp only [Option.some_bind, styleAttrOf]
      rw [htgtA, if_pos hcls]
      rfl
    · rintro (⟨h1, h2⟩ | ⟨h1, h2⟩)
      · -- second click re-hides and clears the border
        have hclick2 : click (setStyleAt (setClassAt d (rowId (N + 1)) "Null")
              (rowId N) "border-left: 5px solid green;") (rowId N)
            = some (setStyleAt (setClassAt
                (setStyleAt (setClassAt d (rowId (N + 1)) "Null") (rowId N)
                  "border-left: 5px solid green;")
                (rowId (N + 1)) "row-hide") (rowId N) "Null") := by
          rw [click_even_row _ N hN _ hsibA, if_pos (by simp)]
        rw [hclick]
        simp only [Option.some_bind]
        rw [hclick2]
        simp only [Option.some_bind, classAttrOf, styleAttrOf]
        constructor
        · rw [getElementById_setStyleAt_ne _ _ _ _ hne1,
            getElementById_setClassAt_self, hsibA, h1]
          rfl
        · rw [getElementById_setStyleAt_self,
            getElementById_setClassAt_ne _ _ _ _ hne2, htgtA, h2]
          rfl
      · -- impossible: the class cannot be both `row-hide` and `Null`
        exact absurd (hcls.symm.trans h1) (by decide)
  · -- the detail row is not hidden: the click hides it and clears the style
    have hclick : click d (rowId N)
        = some (setStyleAt (setClassAt d (rowId (N + 1)) "row-hide") (rowId N)
            "Null") := by
      rw [click_even_row d N hN sib hsib, if_pos hcls]
    have hsibA : getElementById
        (setStyleAt (setClassAt d (rowId (N + 1)) "row-hide") (rowId N) "Null")
          (rowId (N + 1))
        = some { sib with attrClass := some "row-hide" } := by
      rw [getElementById_setStyleAt_ne _ _ _ _ hne1,
        getElementById_setClassAt_self, hsib]
      rfl
    have htgtA : getElementById
        (setStyleAt (setClassAt d (rowId (N + 1)) "row-hide") (rowId N) "Null")
          (rowId N)
        = some { tgt with attrStyle := some "Null" } := by
      rw [getElementById_setStyleAt_self,
        getElementById_setClassAt_ne _ _ _ _ hne2, htgt]
      rfl
    refine ⟨?_, ?_, ?_⟩
    · rw [hclick]
      simp only [Option.some_bind, classAttrOf]
      rw [hsibA, if_neg hcls]
      rfl
    · rw [hclick]
      simp only [Option.some_bind, styleAttrOf]
      rw [htgtA, if_neg hcls]
      rfl
    · rintro (⟨h1, h2⟩ | ⟨h1, h2⟩)
      · exact absurd h1 hcls
      · -- second click unhides again and restores the border
        have hclick2 : click (setStyleAt (setClassAt d (rowId (N + 1)) "row-hide")
              (rowId N) "Null") (rowId N)
            = some (setStyleAt (setClassAt
                (setStyleAt (setClassAt d (rowId (N + 1)) "row-hide") (rowId N)
                  "Null")
                (rowId (N + 1)) "Null") (rowId N)
                "border-left: 5px solid green;") := by
          rw [click_even_row _ N hN _ hsibA, if_neg (by simp)]
        rw [hclick]
        simp only [Option.some_bind]
        rw [hclick2]
        simp only [Option.some_bind, classAttrOf, styleAttrOf]
        constructor
        · rw [getElementById_setStyleAt_ne _ _ _ _ hne1,
            getElementById_setClassAt_self, hsibA, h1]
          rfl
        · rw [getElementById_setStyleAt_self,
            getElementById_setClassAt_ne _ _ _ _ hne2, htgtA, h2]
          rfl

/-! ### Claim C4 and the counterexamples -/

/-- Claim C4 (amended): in a table with fresh rows `0..3`, the first click
on `result-table-row-0` gives row `1` class `row-hide` and row `0` style
`"Null"`; the second click gives row `1` class `"Null"` and row `0` style
`border-left: 5px solid green;` — the two style values are the reverse of
the ones the claim lists. -/
theorem C4_scenario_amended :
    ((click dC4 (rowId 0)).bind (fun d1 => classAttrOf d1 (rowId 1))
        = some (some "row-hide"))
    ∧ ((click dC4 (rowId 0)).bind (fun d1 => styleAttrOf d1 (rowId 0))
        = some (some "Null"))
    ∧ (((click dC4 (rowId 0)).bind (fun d1 => click d1 (rowId 0))).bind
        (fun d2 => classAttrOf d2 (rowId 1)) = some (some "Null"))
    ∧ (((click dC4 (rowId 0)).bind (fun d1 => click d1 (rowId 0))).bind
        (fun d2 => styleAttrOf d2 (rowId 0))
        = some (some "border-left: 5px solid green;")) := by
  decide

/-- Counterexample to claim C4 as stated: after the first click on
`result-table-row-0` in the fresh table, row `0`'s style is the literal
`"Null"`, not the green border the claim promises (the border only appears
after the second click). -/
theorem C4_counterexample :
    ((click dC4 (rowId 0)).bind (fun d1 => styleAttrOf d1 (rowId 0))
        = some (some "Null"))
    ∧ (some (some "Null") : Option (Option String))
        ≠ some (some "border-left: 5px solid green;") := by
  decide

/-- Counterexample to claim C1 as stated: clicking `main-menu` with text
`"Expand"` leaves detail row `1` with class `"Null"`, which is not the
hidden marker `row-hide` — the Expand branch clears hidden markers instead
of applying them, so afterwards no odd row is hidden. -/
theorem C1_counterexample :
    ((click dMenuE "main-menu").bind (fun d' => classAttrOf d' (rowId 1))
        = some (some "Null"))
    ∧ (some (some "Null") : Option (Option String)) ≠ some (some "row-hide") := by
  obtain ⟨d', hclick, htext, hrowsE⟩ :=
    click_mainMenu_expand dMenuE ⟨none, none, "Expand"⟩ (by decide) rfl (by decide)
  refine ⟨?_, by decide⟩
  rw [hclick]
  simp only [Option.some_bind, classAttrOf]
  rw [hrowsE 1]
  decide

/-- Counterexample to claim C2 as stated: clicking `main-menu` with text
`"Collapse"` sets detail row `1`'s class to `row-hide` — the branch hides
every detail row, it does not clear the hidden markers. -/
theorem C2_counterexample :
    ((click dMenuC "main-menu").bind (fun d' => classAttrOf d' (rowId 1))
        = some (some "row-hide"))
    ∧ (some (some "row-hide") : Option (Option String)) ≠ some none := by
  obtain ⟨d', hclick, htext, hrowsE⟩ :=
    click_mainMenu_collapse dMenuC ⟨none, none, "Collapse"⟩ (by decide)
      (by decide) (by decide)
  refine ⟨?_, by decide⟩
  rw [hclick]
  simp only [Option.some_bind, classAttrOf]
  rw [hrowsE 1]
  decide

/-- Counterexample to claim C5 as stated: from a fresh pair (row `1` has no
class attribute at all) two clicks on row `0` leave row `1` with class
`"Null"`, not its original absent class — the round trip fails from
starting states outside the toggle's cycle. -/
theorem C5_counterexample :
    classAttrOf dC4 (rowId 1) = some none
    ∧ (((click dC4 (rowId 0)).bind (fun d1 => click d1 (rowId 0))).bind
        (fun d2 => classAttrOf d2 (rowId 1)) = some (some "Null")) := by
  decide

/-- Counterexample to claim C6 as stated: with table row count `3` the loop
starts at the even index `2`; the even row `2` receives the class mutation
and the odd row `1` is never visited, so the loop does not visit exactly
the odd rows. -/
theorem C6_counterexample :
    ((click dC6 "main-menu").bind (fun d' => classAttrOf d' (rowId 2))
        = some (some "Null"))
    ∧ ((click dC6 "main-menu").bind (fun d' => classAttrOf d' (rowId 1))
        = some none) := by
  obtain ⟨d', hclick, htext, hrowsE⟩ :=
    click_mainMenu_expand dC6 ⟨none, none, "Expand"⟩ (by decide) rfl (by decide)
  rw [hclick]
  simp only [Option.some_bind, classAttrOf]
  rw [hrowsE 2, hrowsE 1]
  exact ⟨by decide, by decide⟩

/-! ### Witnesses -/

/-- Witness for C1 at the two-row page: the detail row's class after the
click is the literal `"Null"`. -/
theorem C1_witness :
    (click dMenuE "main-menu").bind (fun d' => classAttrOf d' (rowId 1))
      = some (some "Null") :=
  (C1_mainMenu_expand_amended dMenuE ⟨none, none, "Expand"⟩ (by decide) rfl
    (by decide) (by decide)).2.1 1 (by decide) (by decide)

/-- Witness for C2 at the two-row page: the detail row is hidden after the
click. -/
theorem C2_witness :
    (click dMenuC "main-menu").bind (fun d' => classAttrOf d' (rowId 1))
      = some (some "row-hide") :=
  (C2_mainMenu_collapse_amended dMenuC ⟨none, none, "Collapse"⟩ (by decide) rfl
    (by decide) (by decide)).2.1 1 (by decide) (by decide)

/-- Witness for C3: clicking fresh row `2` hides row `3` and sets row `2`'s
style to `"Null"`. -/
theorem C3_witness :
    click dC4 (rowId 2)
      = some (setStyleAt (setClassAt dC4 (rowId 3) "row-hide") (rowId 2) "Null") := by
  have h := C3_row_click_effect dC4 2 (by decide) rowElem (by decide)
  rw [h]
  decide

/-- Witness for C5 at a page already in the toggle cycle: two clicks
restore the detail row's class. -/
theorem C5_witness :
    ((click dC5 (rowId 0)).bind (fun d1 => click d1 (rowId 0))).bind
      (fun d2 => classAttrOf d2 (rowId 1)) = some (some "row-hide") :=
  ((C5_toggle_round_trip_amended dC5 0 (by decide)
      ⟨some "row-hide", none, ""⟩ (by decide)
      ⟨none, some "Null", ""⟩ (by decide)).2.2
    (Or.inl ⟨rfl, rfl⟩)).1

/-- Witness for C6 at the three-row page: row `2` (an even index equal to
the loop start) receives the class mutation. -/
theorem C6_witness :
    (click dC6 "main-menu").bind (fun d' => classAttrOf d' (rowId 2))
      = (classAttrOf dC6 (rowId 2)).map (fun c =>
          if 1 ≤ 2 ∧ 2 ≤ dC6.tableRowCount - 1
              ∧ (dC6.tableRowCount - 1 - 2) % 2 = 0
          then some "Null" else c) :=
  C6_loop_coverage_amended dC6 ⟨none, none, "Expand"⟩ (by decide) rfl
    (by decide) 2

/-- Witness for C7: clicking an unrelated identifier changes nothing. -/
theorem C7_witness : click dC4 "foo" = some dC4 :=
  C7_unmatched_noop dC4 "foo" (by decide) (by decide)

/-- Witness for C8: clicking odd row `3` changes nothing. -/
theorem C8_witness : click dC4 (rowId 3) = some dC4 :=
  C8_odd_row_noop dC4 3 (by decide)

/-- Witness for C9: clicking even row `0` with no row `1` present faults. -/
theorem C9_witness : click dC9 (rowId 0) = none :=
  (C9_missing_sibling_fault dC9 0 (by decide)).mpr (by decide)

/-- Witness for C10: clicking the element with identifier
`result-table-row-` hides row `1` and writes the clicked element's style. -/
theorem C10_witness :
    hide_row dC10 "result-table-row-"
      = some (setStyleAt (setClassAt dC10 (rowId 1) "row-hide")
          "result-table-row-" "Null") := by
  have h := (C10_empty_suffix_accepted dC10 rowElem (by decide)).2.2.1
  rw [h]
  decide

end Report
